import Mathlib

/-
Verification of the memory_ops module (src/inc/memory_ops.h, src/src/memory_ops.c).

The module exposes three operations — MEM_compareStructs, MEM_copyStruct and
MEM_fillStruct — whose bodies are ARM inline-assembly byte loops of the shape

    loop: ldrb/strb ...          (access one byte, post-increment the pointer)
          subs size, size, #1    (decrement the 32-bit size register)
          bne loop               (repeat while the size register is nonzero)

i.e. do-while loops that execute their body at least once and, because the
decrement happens before the zero test, execute 2^32 iterations when the
incoming size is 0 (the size register wraps modulo 2^32).

Embedding: memory is a total map from 32-bit-wrapped addresses to bytes
(Fin 256).  Pointers are `Option Nat` (`none` models NULL).  Each operation is
a pure function from the argument values and the incoming memory to the C
return value (an Int, the value of the returned enum constant) and, for the
mutating operations, the outgoing memory.  The loop fuel `iterCount size`
is the exact number of iterations the do-while loop performs on a 32-bit
machine: ((size - 1) mod 2^32) + 1.
-/

/-- Number of byte values: registers loaded by ldrb hold a value below 256. -/
def WORD : Nat := 2 ^ 32

/-- A byte, as loaded by ldrb / stored by strb. -/
abbrev Byte := Fin 256

/-- Memory: a byte for every 32-bit address. -/
abbrev Mem := Nat → Byte

/-- A C pointer: `none` is NULL, `some a` a non-null pointer to address `a`. -/
abbrev Ptr := Option Nat

/-- Read the byte at address `a` (addresses wrap modulo 2^32, as pointer
post-increment does on the 32-bit target). -/
def readByte (m : Mem) (a : Nat) : Byte := m (a % WORD)

/-- Write byte `v` at address `a` (wrapped modulo 2^32). -/
def writeByte (m : Mem) (a : Nat) (v : Byte) : Mem :=
  fun x => if x = a % WORD then v else m x

/-- Value of the C errno constant EFAULT (asm-generic: 14). -/
def EFAULT : Int := 14

/-- Value of the C errno constant ENOSYS (asm-generic: 38). -/
def ENOSYS : Int := 38

/-- Header enum compareStructs: STRUCTS_ARE_EQUAL = (uint8_t)1. -/
def STRUCTS_ARE_EQUAL : Int := 1

/-- Header enum compareStructs: STRUCTS_ARENT_EQUAL = (uint8_t)0. -/
def STRUCTS_ARENT_EQUAL : Int := 0

/-- Header enum compareStructs: STRUCTS_COMPARE_ERROR = -(ENOSYS). -/
def STRUCTS_COMPARE_ERROR : Int := -ENOSYS

/-- Header enum compareStructs: COMPARE_BAD_ADDRESS = -(EFAULT). -/
def COMPARE_BAD_ADDRESS : Int := -EFAULT

/-- Header enum copyStructs: STRUCT_COPIED = (uint8_t)0. -/
def STRUCT_COPIED : Int := 0

/-- Header enum copyStructs: STRUCT_NOT_COPIED = (uint8_t)1. -/
def STRUCT_NOT_COPIED : Int := 1

/-- Header enum copyStructs: STRUCT_COPY_ERROR = -(ENOSYS). -/
def STRUCT_COPY_ERROR : Int := -ENOSYS

/-- Header enum copyStructs: COPY_BAD_ADDRESS = -(EFAULT). -/
def COPY_BAD_ADDRESS : Int := -EFAULT

/-- Header enum fillStruct: STRUCT_FILLED = (uint8_t)0. -/
def STRUCT_FILLED : Int := 0

/-- Header enum fillStruct: STRUCT_NOT_FILLED = (uint8_t)1. -/
def STRUCT_NOT_FILLED : Int := 1

/-- Header enum fillStruct: STRUCT_FILL_ERROR = -(ENOSYS). -/
def STRUCT_FILL_ERROR : Int := -ENOSYS

/-- Header enum fillStruct: FILL_BAD_ADDRESS = -(EFAULT). -/
def FILL_BAD_ADDRESS : Int := -EFAULT

/-- Iterations performed by a `subs size, size, #1 ; bne` do-while loop whose
32-bit size register starts at `size`: ((size - 1) mod 2^32) + 1.  In
particular `iterCount 0 = 2^32` (the decrement wraps) and `iterCount n = n`
for 1 ≤ n ≤ 2^32. -/
def iterCount (size : Nat) : Nat := (size + (WORD - 1)) % WORD + 1

/-- The cmp_loop of MEM_compareStructs: load a byte from each cursor,
post-increment both, exit with `false` (not_equal) at the first mismatch,
with `true` (equal) when the fuel runs out. -/
def cmpLoop (m : Mem) : Nat → Nat → Nat → Bool
  | _, _, 0 => true
  | a, b, n + 1 =>
      if readByte m a = readByte m b then cmpLoop m (a + 1) (b + 1) n else false

/-- MEM_compareStructs (src/src/memory_ops.c, lines 67-103): NULL check on
either argument first, else the cmp_loop over `iterCount size` iterations. -/
def MEM_compareStructs (m : Mem) (struct_a struct_b : Ptr) (size : Nat) : Int :=
  match struct_a, struct_b with
  | some a, some b =>
      if cmpLoop m a b (iterCount size) then STRUCTS_ARE_EQUAL
      else STRUCTS_ARENT_EQUAL
  | _, _ => COMPARE_BAD_ADDRESS

/-- The copy_loop of MEM_copyStruct: load a byte from the source cursor, store
it at the destination cursor, post-increment both, repeat until the fuel runs
out. -/
def copyLoop : Mem → Nat → Nat → Nat → Mem
  | m, _, _, 0 => m
  | m, s, d, n + 1 => copyLoop (writeByte m d (readByte m s)) (s + 1) (d + 1) n

/-- MEM_copyStruct (src/src/memory_ops.c, lines 124-148): NULL check on either
argument first, else the copy_loop over `iterCount size` iterations; the
status is STRUCT_COPIED whenever both pointers are non-null. -/
def MEM_copyStruct (m : Mem) (source destine : Ptr) (size : Nat) : Int × Mem :=
  match source, destine with
  | some s, some d => (STRUCT_COPIED, copyLoop m s d (iterCount size))
  | _, _ => (COPY_BAD_ADDRESS, m)

/-- The fill_loop of MEM_fillStruct: store the fill byte at the destination
cursor, post-increment it, repeat until the fuel runs out. -/
def fillLoop (v : Byte) : Mem → Nat → Nat → Mem
  | m, _, 0 => m
  | m, d, n + 1 => fillLoop v (writeByte m d v) (d + 1) n

/-- MEM_fillStruct (src/src/memory_ops.c, lines 168-192): NULL check first,
else the fill_loop over `iterCount size` iterations; the status is
STRUCT_FILLED whenever the pointer is non-null. -/
def MEM_fillStruct (m : Mem) (struct_ptr : Ptr) (size : Nat) (value : Byte) :
    Int × Mem :=
  match struct_ptr with
  | some d => (STRUCT_FILLED, fillLoop value m d (iterCount size))
  | none => (FILL_BAD_ADDRESS, m)

/-- All-zero memory, used for concrete runs. -/
def mZero : Mem := fun _ => 0

/-- Memory holding byte 1 at address 1 and 0 elsewhere, used for concrete
runs. -/
def mDiff : Mem := fun x => if x = 1 then 1 else 0

/-- WORD as a numeral. -/
lemma word_eq : WORD = 4294967296 := by norm_num [WORD]

/-- A do-while loop always performs at least one iteration. -/
lemma iterCount_pos (n : Nat) : 0 < iterCount n := Nat.succ_pos _

/-- For a size in 1..2^32 the do-while loop performs exactly `size`
iterations. -/
lemma iterCount_eq_self (n : Nat) (h1 : 1 ≤ n) (h2 : n ≤ WORD) :
    iterCount n = n := by
  have hW : WORD = 4294967296 := word_eq
  unfold iterCount
  have e : n + (WORD - 1) = (n - 1) + WORD := by omega
  rw [e, Nat.add_mod_right, Nat.mod_eq_of_lt (by omega)]
  omega

/-- For size 0 the decrement wraps and the loop performs 2^32 iterations. -/
lemma iterCount_zero : iterCount 0 = WORD := by
  have hW : WORD = 4294967296 := word_eq
  unfold iterCount
  rw [Nat.zero_add, Nat.mod_eq_of_lt (by omega)]
  omega

/-- The compare loop returns true exactly when the n bytes at the two cursors
agree pairwise. -/
lemma cmpLoop_true_iff (m : Mem) (n : Nat) : ∀ a b : Nat,
    cmpLoop m a b n = true ↔
      ∀ i, i < n → readByte m (a + i) = readByte m (b + i) := by
  induction n with
  | zero =>
    intro a b
    constructor
    · intro _ i hi
      omega
    · intro _
      rfl
  | succ k ih =>
    intro a b
    constructor
    · intro hloop i hi
      by_cases h : readByte m a = readByte m b
      · rw [cmpLoop, if_pos h] at hloop
        rcases i with _ | j
        · simpa using h
        · have hj := (ih (a + 1) (b + 1)).mp hloop j (by omega)
          have e1 : a + 1 + j = a + (j + 1) := by omega
          have e2 : b + 1 + j = b + (j + 1) := by omega
          rwa [e1, e2] at hj
      · rw [cmpLoop, if_neg h] at hloop
        exact absurd hloop (by simp)
    · intro hall
      have h0 : readByte m a = readByte m b := by
        simpa using hall 0 (by omega)
      rw [cmpLoop, if_pos h0]
      refine (ih (a + 1) (b + 1)).mpr ?_
      intro j hj
      have hj := hall (j + 1) (by omega)
      have e1 : a + 1 + j = a + (j + 1) := by omega
      have e2 : b + 1 + j = b + (j + 1) := by omega
      rw [e1, e2]
      exact hj

/-- If the bytes at the two cursors differ, the compare loop exits with false
on its first iteration (any positive fuel). -/
lemma cmpLoop_false_head (m : Mem) (a b n : Nat)
    (h : readByte m a ≠ readByte m b) (hn : 0 < n) :
    cmpLoop m a b n = false := by
  rcases n with _ | k
  · omega
  · rw [cmpLoop, if_neg h]

/-- Frame property of the fill loop: an address never hit by a store keeps its
byte. -/
lemma fillLoop_frame (v : Byte) : ∀ (n d : Nat) (m : Mem) (x : Nat),
    (∀ i, i < n → (d + i) % WORD ≠ x) → fillLoop v m d n x = m x := by
  intro n
  induction n with
  | zero =>
    intro d m x _
    rfl
  | succ k ih =>
    intro d m x hx
    have hrest : ∀ j, j < k → (d + 1 + j) % WORD ≠ x := by
      intro j hj
      have e : d + 1 + j = d + (j + 1) := by omega
      rw [e]
      exact hx (j + 1) (by omega)
    have hne : ¬ x = d % WORD := by
      intro hc
      exact hx 0 (by omega) (by simpa using hc.symm)
    rw [fillLoop, ih (d + 1) (writeByte m d v) x hrest, writeByte, if_neg hne]

/-- Every address hit by a store of the fill loop holds the fill byte
afterwards. -/
lemma fillLoop_written (v : Byte) : ∀ (n d : Nat) (m : Mem) (x : Nat),
    (∃ i, i < n ∧ (d + i) % WORD = x) → fillLoop v m d n x = v := by
  intro n
  induction n with
  | zero =>
    rintro d m x ⟨i, hi, _⟩
    omega
  | succ k ih =>
    intro d m x hex
    rw [fillLoop]
    by_cases h : ∃ j, j < k ∧ (d + 1 + j) % WORD = x
    · exact ih (d + 1) (writeByte m d v) x h
    · push_neg at h
      have hx : (d + 0) % WORD = x := by
        obtain ⟨i, hi, hieq⟩ := hex
        rcases i with _ | j
        · exact hieq
        · exfalso
          refine h j (by omega) ?_
          have e : d + 1 + j = d + (j + 1) := by omega
          rw [e]
          exact hieq
      have hcond : x = d % WORD := by
        simpa using hx.symm
      rw [fillLoop_frame v k (d + 1) (writeByte m d v) x h, writeByte,
        if_pos hcond]

/-- Behaviour of the copy loop on non-overlapping, non-wrapping regions: the
destination bytes become the source bytes, and every address outside the
destination region keeps its byte (in particular the whole source region). -/
lemma copyLoop_disjoint : ∀ (n s d : Nat) (m : Mem),
    s + n ≤ WORD → d + n ≤ WORD → (d + n ≤ s ∨ s + n ≤ d) →
    (∀ i, i < n → copyLoop m s d n (d + i) = m (s + i)) ∧
    (∀ x, (∀ i, i < n → x ≠ d + i) → copyLoop m s d n x = m x) := by
  intro n
  induction n with
  | zero =>
    intro s d m _ _ _
    exact ⟨fun i hi => absurd hi (by omega), fun x _ => rfl⟩
  | succ k ih =>
    intro s d m hs hd hdisj
    have hsW : s < WORD := by omega
    have hdW : d < WORD := by omega
    have hm : ∀ x, writeByte m d (readByte m s) x =
        if x = d then m s else m x := by
      intro x
      rw [writeByte, readByte, Nat.mod_eq_of_lt hsW, Nat.mod_eq_of_lt hdW]
    obtain ⟨ih1, ih2⟩ :=
      ih (s + 1) (d + 1) (writeByte m d (readByte m s)) (by omega) (by omega)
        (by omega)
    constructor
    · intro i hi
      rcases i with _ | j
      · have hframe :
            copyLoop m s d (k + 1) (d + 0) =
              writeByte m d (readByte m s) (d + 0) := by
          rw [copyLoop]
          exact ih2 (d + 0) (by intro i hi2; omega)
        rw [hframe, Nat.add_zero, hm d, if_pos rfl, Nat.add_zero]
      · have e1 : d + (j + 1) = d + 1 + j := by omega
        have e2 : s + (j + 1) = s + 1 + j := by omega
        rw [e1, e2, copyLoop, ih1 j (by omega), hm, if_neg (by omega)]
    · intro x hx
      have hx1 : ∀ j, j < k → x ≠ d + 1 + j := by
        intro j hj
        have := hx (j + 1) (by omega)
        omega
      rw [copyLoop, ih2 x hx1, hm, if_neg (by intro hc; exact hx 0 (by omega) (by omega))]

/-- Claim C3 fails as stated at extent 0: two non-null empty buffers are
vacuously identical on [0,0), yet MEM_compareStructs runs its do-while loop
anyway, reads the (out-of-buffer) bytes at the two base addresses, finds them
different, and returns STRUCTS_ARENT_EQUAL instead of STRUCTS_ARE_EQUAL. -/
theorem mem_C3_counterexample :
    MEM_compareStructs mDiff (some 0) (some 1) 0 = STRUCTS_ARENT_EQUAL ∧
    STRUCTS_ARENT_EQUAL ≠ STRUCTS_ARE_EQUAL := by
  constructor
  · have hne : readByte mDiff 0 ≠ readByte mDiff 1 := by decide
    have hfalse : cmpLoop mDiff 0 1 (iterCount 0) = false :=
      cmpLoop_false_head mDiff 0 1 (iterCount 0) hne (iterCount_pos 0)
    rw [MEM_compareStructs, hfalse]
    rfl
  · decide

/-- Claim C3 (amended): for non-null buffers A, B and an extent N with
1 ≤ N ≤ 2^32 (every nonzero size_t qualifies), MEM_compareStructs returns
STRUCTS_ARE_EQUAL iff the bytes agree at every index i in [0,N), and returns
STRUCTS_ARENT_EQUAL iff some index in [0,N) mismatches. -/
theorem mem_C3_compare_correct (m : Mem) (a b N : Nat) (h1 : 1 ≤ N)
    (h2 : N ≤ WORD) :
    (MEM_compareStructs m (some a) (some b) N = STRUCTS_ARE_EQUAL ↔
      ∀ i, i < N → readByte m (a + i) = readByte m (b + i)) ∧
    (MEM_compareStructs m (some a) (some b) N = STRUCTS_ARENT_EQUAL ↔
      ∃ i, i < N ∧ readByte m (a + i) ≠ readByte m (b + i)) := by
  have hiter : iterCount N = N := iterCount_eq_self N h1 h2
  rw [MEM_compareStructs, hiter]
  by_cases hc : cmpLoop m a b N = true
  · have hall := (cmpLoop_true_iff m N a b).mp hc
    rw [if_pos hc]
    constructor
    · exact iff_of_true rfl hall
    · refine iff_of_false (by decide) ?_
      rintro ⟨i, hi, hne⟩
      exact hne (hall i hi)
  · have hnall : ¬ ∀ i, i < N → readByte m (a + i) = readByte m (b + i) :=
      fun hall => hc ((cmpLoop_true_iff m N a b).mpr hall)
    rw [if_neg hc]
    constructor
    · exact iff_of_false (by decide) hnall
    · refine iff_of_true rfl ?_
      push_neg at hnall
      exact hnall

/-- Witness for mem_C3_compare_correct at m = mDiff, a = 0, b = 8, N = 3. -/
theorem mem_C3_compare_correct_witness :
    ((1 ≤ 3 ∧ (3 : Nat) ≤ WORD) ∧
     ((MEM_compareStructs mDiff (some 0) (some 8) 3 = STRUCTS_ARE_EQUAL ↔
        ∀ i, i < 3 → readByte mDiff (0 + i) = readByte mDiff (8 + i)) ∧
      (MEM_compareStructs mDiff (some 0) (some 8) 3 = STRUCTS_ARENT_EQUAL ↔
        ∃ i, i < 3 ∧ readByte mDiff (0 + i) ≠ readByte mDiff (8 + i)))) :=
  ⟨⟨by decide, by decide⟩,
    mem_C3_compare_correct mDiff 0 8 3 (by decide) (by decide)⟩

/-- Claim C4: a NULL argument in any of the five positions makes the
operation return its BAD_ADDRESS code with the memory returned exactly as it
came in (no access, all-or-nothing failure). -/
theorem mem_C4_null_bad_address (m : Mem) (p : Ptr) (N : Nat) (v : Byte) :
    MEM_compareStructs m none p N = COMPARE_BAD_ADDRESS ∧
    MEM_compareStructs m p none N = COMPARE_BAD_ADDRESS ∧
    MEM_copyStruct m none p N = (COPY_BAD_ADDRESS, m) ∧
    MEM_copyStruct m p none N = (COPY_BAD_ADDRESS, m) ∧
    MEM_fillStruct m none N v = (FILL_BAD_ADDRESS, m) :=
  ⟨by cases p <;> rfl, by cases p <;> rfl, by cases p <;> rfl,
    by cases p <;> rfl, rfl⟩

/-- Claim C6: for a non-null destination and any extent N in size_t range
(N ≤ 2^32; N = 0 included, its byte condition being vacuous), MEM_fillStruct
returns STRUCT_FILLED and afterwards every byte of the destination region
holds the fill value. -/
theorem mem_C6_fill_correct (m : Mem) (d N : Nat) (v : Byte) (h : N ≤ WORD) :
    (MEM_fillStruct m (some d) N v).1 = STRUCT_FILLED ∧
    ∀ i, i < N → readByte (MEM_fillStruct m (some d) N v).2 (d + i) = v := by
  constructor
  · simp only [MEM_fillStruct]
  · intro i hi
    have hiter : iterCount N = N := iterCount_eq_self N (by omega) h
    have hmem : (MEM_fillStruct m (some d) N v).2 = fillLoop v m d N := by
      simp only [MEM_fillStruct, hiter]
    rw [hmem]
    simp only [readByte]
    exact fillLoop_written v N d m ((d + i) % WORD) ⟨i, hi, rfl⟩

/-- Witness for mem_C6_fill_correct at m = mZero, d = 5, N = 2, v = 9. -/
theorem mem_C6_fill_correct_witness :
    ((2 : Nat) ≤ WORD ∧
     ((MEM_fillStruct mZero (some 5) 2 9).1 = STRUCT_FILLED ∧
      ∀ i, i < 2 → readByte (MEM_fillStruct mZero (some 5) 2 9).2 (5 + i) = 9)) :=
  ⟨by decide, mem_C6_fill_correct mZero 5 2 9 (by decide)⟩

/-- Claim C5 fails as stated when the two regions overlap: with source 0 and
destination 1 over 2 bytes on a memory holding byte 1 at address 1, the
forward byte loop overwrites the source byte at address 1 before reading it,
so afterwards the destination byte at index 1 is 0 while the original source
byte at index 1 was 1 (and the source region itself was modified). -/
theorem mem_C5_counterexample :
    (MEM_copyStruct mDiff (some 0) (some 1) 2).1 = STRUCT_COPIED ∧
    (MEM_copyStruct mDiff (some 0) (some 1) 2).2 (1 + 1) ≠ mDiff (0 + 1) ∧
    (MEM_copyStruct mDiff (some 0) (some 1) 2).2 (0 + 1) ≠ mDiff (0 + 1) := by
  refine ⟨rfl, by decide, by decide⟩

/-- Claim C5 (amended): for non-null source S and destination D of length N
whose regions [S,S+N) and [D,D+N) lie in the 32-bit address space and do not
overlap (the module's stated assumption), MEM_copyStruct returns
STRUCT_COPIED, afterwards the destination byte at every index i in [0,N)
equals the original source byte at index i, and every source byte is
unchanged. -/
theorem mem_C5_copy_correct (m : Mem) (s d N : Nat)
    (hs : s + N ≤ WORD) (hd : d + N ≤ WORD)
    (hdisj : d + N ≤ s ∨ s + N ≤ d) :
    (MEM_copyStruct m (some s) (some d) N).1 = STRUCT_COPIED ∧
    (∀ i, i < N → (MEM_copyStruct m (some s) (some d) N).2 (d + i) = m (s + i)) ∧
    (∀ i, i < N → (MEM_copyStruct m (some s) (some d) N).2 (s + i) = m (s + i)) := by
  refine ⟨by simp only [MEM_copyStruct], ?_, ?_⟩
  · intro i hi
    have hiter : iterCount N = N := iterCount_eq_self N (by omega) (by omega)
    have hmem : (MEM_copyStruct m (some s) (some d) N).2 = copyLoop m s d N := by
      simp only [MEM_copyStruct, hiter]
    rw [hmem]
    exact (copyLoop_disjoint N s d m hs hd hdisj).1 i hi
  · intro i hi
    have hiter : iterCount N = N := iterCount_eq_self N (by omega) (by omega)
    have hmem : (MEM_copyStruct m (some s) (some d) N).2 = copyLoop m s d N := by
      simp only [MEM_copyStruct, hiter]
    rw [hmem]
    exact (copyLoop_disjoint N s d m hs hd hdisj).2 (s + i) (by intro j hj; omega)

/-- Witness for mem_C5_copy_correct at m = mDiff, s = 0, d = 8, N = 3. -/
theorem mem_C5_copy_correct_witness :
    ((0 + 3 ≤ WORD ∧ 8 + 3 ≤ WORD ∧ (8 + 3 ≤ 0 ∨ 0 + 3 ≤ 8)) ∧
     ((MEM_copyStruct mDiff (some 0) (some 8) 3).1 = STRUCT_COPIED ∧
      (∀ i, i < 3 →
        (MEM_copyStruct mDiff (some 0) (some 8) 3).2 (8 + i) = mDiff (0 + i)) ∧
      (∀ i, i < 3 →
        (MEM_copyStruct mDiff (some 0) (some 8) 3).2 (0 + i) = mDiff (0 + i)))) :=
  ⟨⟨by decide, by decide, Or.inr (by decide)⟩,
    mem_C5_copy_correct mDiff 0 8 3 (by decide) (by decide) (Or.inr (by decide))⟩

/-- Claim C7 fails as stated when the regions overlap backwards: copying 2
bytes from source 1 to destination 0 on mDiff and then comparing the same
two regions returns STRUCTS_ARENT_EQUAL, not STRUCTS_ARE_EQUAL (the copy
modified its own source region). -/
theorem mem_C7_counterexample :
    MEM_compareStructs (MEM_copyStruct mDiff (some 1) (some 0) 2).2
        (some 1) (some 0) 2 = STRUCTS_ARENT_EQUAL ∧
    STRUCTS_ARENT_EQUAL ≠ STRUCTS_ARE_EQUAL :=
  ⟨by decide, by decide⟩

/-- Claim C7 (amended): for non-null source S and destination D and a nonzero
extent N whose regions [S,S+N) and [D,D+N) lie in the 32-bit address space
and do not overlap (the module's stated assumption), MEM_copyStruct followed
by MEM_compareStructs on the same arguments returns STRUCTS_ARE_EQUAL. -/
theorem mem_C7_roundtrip (m : Mem) (s d N : Nat) (h1 : 1 ≤ N)
    (hs : s + N ≤ WORD) (hd : d + N ≤ WORD)
    (hdisj : d + N ≤ s ∨ s + N ≤ d) :
    MEM_compareStructs (MEM_copyStruct m (some s) (some d) N).2
      (some s) (some d) N = STRUCTS_ARE_EQUAL := by
  have hiter : iterCount N = N := iterCount_eq_self N h1 (by omega)
  obtain ⟨hcp, hfr⟩ := copyLoop_disjoint N s d m hs hd hdisj
  have hmem : (MEM_copyStruct m (some s) (some d) N).2 = copyLoop m s d N := by
    simp only [MEM_copyStruct, hiter]
  have hbytes : ∀ i, i < N →
      readByte (copyLoop m s d N) (s + i) = readByte (copyLoop m s d N) (d + i) := by
    intro i hi
    simp only [readByte]
    rw [Nat.mod_eq_of_lt (by omega), Nat.mod_eq_of_lt (by omega),
      hcp i hi, hfr (s + i) (by intro j hj; omega)]
  rw [hmem, MEM_compareStructs, hiter,
    if_pos ((cmpLoop_true_iff (copyLoop m s d N) N s d).mpr hbytes)]

/-- Witness for mem_C7_roundtrip at m = mDiff, s = 0, d = 4, N = 2. -/
theorem mem_C7_roundtrip_witness :
    ((1 ≤ 2 ∧ 0 + 2 ≤ WORD ∧ 4 + 2 ≤ WORD ∧ (4 + 2 ≤ 0 ∨ 0 + 2 ≤ 4)) ∧
     MEM_compareStructs (MEM_copyStruct mDiff (some 0) (some 4) 2).2
       (some 0) (some 4) 2 = STRUCTS_ARE_EQUAL) :=
  ⟨⟨by decide, by decide, by decide, Or.inr (by decide)⟩,
    mem_C7_roundtrip mDiff 0 4 2 (by decide) (by decide) (by decide)
      (Or.inr (by decide))⟩

/-- Claim C1 fails on the code: with extent 0 and a non-null destination, the
decrement-before-test loop of MEM_fillStruct wraps the 32-bit size register
to 2^32 and writes every byte of the address space.  On all-zero memory,
fill(address 0, N = 0, value 7) returns the success code STRUCT_FILLED but
leaves byte 137 changed from 0 to 7, contradicting the required absence of
memory accesses. -/
theorem mem_C1_zero_extent_bug :
    (MEM_fillStruct mZero (some 0) 0 7).1 = STRUCT_FILLED ∧
    (MEM_fillStruct mZero (some 0) 0 7).2 137 = 7 ∧
    mZero 137 = 0 := by
  refine ⟨rfl, ?_, rfl⟩
  have hmem : (MEM_fillStruct mZero (some 0) 0 7).2 = fillLoop 7 mZero 0 WORD := by
    simp only [MEM_fillStruct, iterCount_zero]
  rw [hmem]
  apply fillLoop_written
  refine ⟨137, by rw [word_eq]; omega, by rw [word_eq]⟩

/-- Claim C2 fails on the code: with extent 0 the region [address,
address+extent) is empty, yet MEM_fillStruct writes bytes far outside it.
On all-zero memory, fill(address 10, N = 0, value 5) changes byte 42 (an
address outside the empty region [10,10)) from 0 to 5. -/
theorem mem_C2_out_of_region_write :
    (MEM_fillStruct mZero (some 10) 0 5).2 42 = 5 ∧
    mZero 42 = 0 := by
  refine ⟨?_, rfl⟩
  have hmem : (MEM_fillStruct mZero (some 10) 0 5).2 = fillLoop 5 mZero 10 WORD := by
    simp only [MEM_fillStruct, iterCount_zero]
  rw [hmem]
  apply fillLoop_written
  refine ⟨32, by rw [word_eq]; omega, by rw [word_eq]⟩

/-- Claim C9 fails on the code: with extent 0 the referenced regions are
empty, so mZero and mDiff trivially agree on them (they differ only at
address 1, outside both empty regions), yet MEM_compareStructs returns
STRUCTS_ARE_EQUAL on one memory and STRUCTS_ARENT_EQUAL on the other — the
result depends on memory outside the given regions, which the wrapped
do-while loop reads. -/
theorem mem_C9_purity_bug :
    MEM_compareStructs mZero (some 0) (some 1) 0 = STRUCTS_ARE_EQUAL ∧
    MEM_compareStructs mDiff (some 0) (some 1) 0 = STRUCTS_ARENT_EQUAL ∧
    STRUCTS_ARE_EQUAL ≠ STRUCTS_ARENT_EQUAL := by
  refine ⟨?_, ?_, by decide⟩
  · rw [MEM_compareStructs,
      if_pos ((cmpLoop_true_iff mZero (iterCount 0) 0 1).mpr (fun i _ => rfl))]
  · have hne : readByte mDiff 0 ≠ readByte mDiff 1 := by decide
    have hfalse : cmpLoop mDiff 0 1 (iterCount 0) = false :=
      cmpLoop_false_head mDiff 0 1 (iterCount 0) hne (iterCount_pos 0)
    rw [MEM_compareStructs, hfalse]
    rfl

/-- Claim C8: for every input, MEM_compareStructs returns one of
STRUCTS_ARE_EQUAL, STRUCTS_ARENT_EQUAL, COMPARE_BAD_ADDRESS; MEM_copyStruct
returns one of STRUCT_COPIED, COPY_BAD_ADDRESS; MEM_fillStruct returns one
of STRUCT_FILLED, FILL_BAD_ADDRESS.  Since the listed codes are the values
1, 0 and -14, this rules out STRUCT_NOT_COPIED (1 is not reachable for copy),
STRUCT_NOT_FILLED and the three ENOSYS-based error codes (-38). -/
theorem mem_C8_result_codes (m : Mem) (pa pb ps pd pf : Ptr)
    (nc np nf : Nat) (v : Byte) :
    (MEM_compareStructs m pa pb nc = STRUCTS_ARE_EQUAL ∨
     MEM_compareStructs m pa pb nc = STRUCTS_ARENT_EQUAL ∨
     MEM_compareStructs m pa pb nc = COMPARE_BAD_ADDRESS) ∧
    ((MEM_copyStruct m ps pd np).1 = STRUCT_COPIED ∨
     (MEM_copyStruct m ps pd np).1 = COPY_BAD_ADDRESS) ∧
    ((MEM_fillStruct m pf nf v).1 = STRUCT_FILLED ∨
     (MEM_fillStruct m pf nf v).1 = FILL_BAD_ADDRESS) := by
  refine ⟨?_, ?_, ?_⟩
  · rcases pa with _ | a
    · rcases pb with _ | b
      · right; right; rfl
      · right; right; rfl
    · rcases pb with _ | b
      · right; right; rfl
      · cases hc : cmpLoop m a b (iterCount nc)
        · right; left
          rw [MEM_compareStructs, hc]
          rfl
        · left
          rw [MEM_compareStructs, if_pos hc]
  · rcases ps with _ | s
    · rcases pd with _ | d
      · right; rfl
      · right; rfl
    · rcases pd with _ | d
      · right; rfl
      · left
        simp only [MEM_copyStruct]
  · rcases pf with _ | f
    · right; rfl
    · left
      simp only [MEM_fillStruct]

/-- Claim C10: the concrete integer encoding of the status enums — compare
returns 1 for equal buffers and 0 for different ones (the reverse of the
memcmp convention), the copy and fill success codes are 0, and every
BAD_ADDRESS code is -EFAULT, a negative value distinct from all success
codes.  The two concrete runs exhibit the reversed convention on the
functions themselves. -/
theorem mem_C10_encoding :
    STRUCTS_ARE_EQUAL = 1 ∧ STRUCTS_ARENT_EQUAL = 0 ∧
    STRUCT_COPIED = 0 ∧ STRUCT_FILLED = 0 ∧
    COMPARE_BAD_ADDRESS = -EFAULT ∧ COPY_BAD_ADDRESS = -EFAULT ∧
    FILL_BAD_ADDRESS = -EFAULT ∧ COMPARE_BAD_ADDRESS < 0 ∧
    COMPARE_BAD_ADDRESS ≠ STRUCTS_ARE_EQUAL ∧
    COMPARE_BAD_ADDRESS ≠ STRUCTS_ARENT_EQUAL ∧
    COPY_BAD_ADDRESS ≠ STRUCT_COPIED ∧ FILL_BAD_ADDRESS ≠ STRUCT_FILLED ∧
    MEM_compareStructs mZero (some 0) (some 0) 1 = 1 ∧
    MEM_compareStructs mDiff (some 0) (some 1) 1 = 0 :=
  ⟨rfl, rfl, rfl, rfl, rfl, rfl, rfl, by decide, by decide, by decide,
    by decide, by decide, by decide, by decide⟩
